import Mathlib

/-!
# Movie service: bootstrap and connection-pool lifecycle

A shallow embedding of `cmd/api/main.go` (functions `main` and `openDB`).

The program is a straight-line sequence of calls into libraries
(`flag`, `database/sql`, `time`, `context`, the logger, the listener).  The
embedding keeps the control flow of the two functions and records every
library call as an `Event` of a trace.  What a library call answers is not
decided by this repository, so the answers are read from a `World`: one
field per call whose result the code branches on.  The pool handle carries
the policy fields of `database/sql`, and its setters store what the library
stores.
-/

namespace MovieService

/-! ## Data model -/

/-- A Go `time.Duration`: a signed number of nanoseconds. -/
abbrev Duration := Int

/-- The constant `time.Second`, in nanoseconds. -/
def Second : Duration := 1000000000

/-- The anonymous struct `config.db`. -/
structure DbConfig where
  dsn : String
  maxOpenConns : Int
  maxIdleConns : Int
  maxIdleTime : String
deriving DecidableEq, Repr

/-- The anonymous struct `config.limiter`.  The `float64` field `rps` is
carried as a rational: the code only stores and forwards it. -/
structure LimiterConfig where
  rps : ℚ
  burst : Int
  enabled : Bool
deriving DecidableEq, Repr

/-- The struct `config`. -/
structure config where
  port : Int
  env : String
  db : DbConfig
  limiter : LimiterConfig
deriving DecidableEq, Repr

/-- A `*sql.DB` pool handle, as far as this program touches it: the data
source it was opened on and the three policy fields of `database/sql`.
`maxOpen` is the limit on open connections (`0`: no limit); `maxIdleCount`
is the limit on idle connections (`0`: the library default, negative: none
retained); `maxIdleTime` is the idle lifetime (`0`: connections are not
closed for being idle). -/
structure DB where
  dsn : String
  maxOpen : Int
  maxIdleCount : Int
  maxIdleTime : Duration
deriving DecidableEq, Repr

/-- Error values, tagged with the call that returned them.  The code never
wraps or rewrites an error, so the tag is the provenance of the value. -/
inductive Err
  | sqlOpen (cause : String)
  | parseDuration (cause : String)
  | pingContext (cause : String)
  | serve (cause : String)
deriving DecidableEq, Repr

/-- The observable steps of a run, in program order. -/
inductive Event
  | println (port : Int)
  | sqlOpen (dsn : String) (err : Option String)
  | setMaxOpenConns (n : Int)
  | setMaxIdleConns (n : Int)
  | parseDuration (s : String) (ok : Bool)
  | setConnMaxIdleTime (d : Duration)
  | pingContext (timeout : Duration) (err : Option String)
  | cancel
  | close
  | printInfo (msg : String)
  | printFatal (err : Err)
  | newModels
  | serve (err : Option String)
deriving DecidableEq, Repr

/-- What the libraries answer.  `none` stands for a nil error. -/
structure World where
  /-- The process environment once `env.Load(".env")` has run (its error is
  discarded by `main`). -/
  environ : String → Option String
  /-- The error of `sql.Open("postgres", dsn)`.  With the `lib/pq` driver that
  `main.go` registers, the call neither parses the name nor connects and
  answers nil for every name. -/
  sqlOpen : String → Option String
  /-- The result of `time.ParseDuration`. -/
  parseDuration : String → Except String Duration
  /-- The error of `db.PingContext(ctx)` for a context with the given timeout. -/
  pingContext : DB → Duration → Option String
  /-- The error of `app.serve()`, a method defined outside `main.go`: `none`
  when the listener shut down gracefully. -/
  serve : config → Option String

/-! ## Configuration resolution (`main`, lines 42 to 60) -/

/-- One command-line flag occurrence, its value already converted by the
`flag` package to the type of the variable it is bound to. -/
inductive Flag
  | port (v : Int)
  | env (v : String)
  | dbDsn (v : String)
  | dbMaxOpenConns (v : Int)
  | dbMaxIdleConns (v : Int)
  | dbMaxIdleTime (v : String)
  | limiterRps (v : ℚ)
  | limiterBurst (v : Int)
  | limiterEnabled (v : Bool)
deriving DecidableEq, Repr

/-- First result of `env.MustGet(key)`; `main` discards the second (the
error), so an unset variable reads as the empty string. -/
def MustGet (environ : String → Option String) (key : String) : String :=
  (environ key).getD ""

/-- The values the `flag.*Var` registrations store in `conf` before
`flag.Parse` runs. -/
def flagDefaults (default_dsn : String) : config :=
  { port := 4000
    env := "development"
    db := { dsn := default_dsn, maxOpenConns := 25, maxIdleConns := 25, maxIdleTime := "15m" }
    limiter := { rps := 2, burst := 4, enabled := true } }

/-- The effect of one flag occurrence: `flag.Parse` stores the value in the
variable registered under that name. -/
def Flag.assign (conf : config) : Flag → config
  | .port v => { conf with port := v }
  | .env v => { conf with env := v }
  | .dbDsn v => { conf with db := { conf.db with dsn := v } }
  | .dbMaxOpenConns v => { conf with db := { conf.db with maxOpenConns := v } }
  | .dbMaxIdleConns v => { conf with db := { conf.db with maxIdleConns := v } }
  | .dbMaxIdleTime v => { conf with db := { conf.db with maxIdleTime := v } }
  | .limiterRps v => { conf with limiter := { conf.limiter with rps := v } }
  | .limiterBurst v => { conf with limiter := { conf.limiter with burst := v } }
  | .limiterEnabled v => { conf with limiter := { conf.limiter with enabled := v } }

/-- The call `flag.Parse()` on well-formed arguments: occurrences are applied
left to right, so a repeated flag keeps its last value. -/
def parseFlags (default_dsn : String) (args : List Flag) : config :=
  args.foldl Flag.assign (flagDefaults default_dsn)

/-- The configuration `main` holds after `flag.Parse()`. -/
def resolveConfig (w : World) (args : List Flag) : config :=
  parseFlags (MustGet w.environ "DB_DSN") args

/-- The value of a `-port` occurrence. -/
def Flag.port? : Flag → Option Int
  | .port v => some v
  | _ => none

/-- The value of a `-env` occurrence. -/
def Flag.env? : Flag → Option String
  | .env v => some v
  | _ => none

/-- The value of a `-db-dsn` occurrence. -/
def Flag.dbDsn? : Flag → Option String
  | .dbDsn v => some v
  | _ => none

/-- The value of a `-db-max-open-conns` occurrence. -/
def Flag.dbMaxOpenConns? : Flag → Option Int
  | .dbMaxOpenConns v => some v
  | _ => none

/-- The value of a `-db-max-idle-conns` occurrence. -/
def Flag.dbMaxIdleConns? : Flag → Option Int
  | .dbMaxIdleConns v => some v
  | _ => none

/-- The value of a `-db-max-idle-time` occurrence. -/
def Flag.dbMaxIdleTime? : Flag → Option String
  | .dbMaxIdleTime v => some v
  | _ => none

/-- The value of a `-limiter-rps` occurrence. -/
def Flag.limiterRps? : Flag → Option ℚ
  | .limiterRps v => some v
  | _ => none

/-- The value of a `-limiter-burst` occurrence. -/
def Flag.limiterBurst? : Flag → Option Int
  | .limiterBurst v => some v
  | _ => none

/-- The value of a `-limiter-enabled` occurrence. -/
def Flag.limiterEnabled? : Flag → Option Bool
  | .limiterEnabled v => some v
  | _ => none

/-- The value a flag list supplies for one variable: that of the last
occurrence `pick` recognises, `none` when there is none. -/
def supplied {α : Type} (pick : Flag → Option α) (args : List Flag) : Option α :=
  args.foldl (fun acc f => match pick f with
    | some v => some v
    | none => acc) none

/-! ## `openDB` -/

/-- The constant `defaultMaxIdleConns` of `database/sql`. -/
def defaultMaxIdleConns : Int := 2

/-- The method `maxIdleConnsLocked` of `database/sql`: the number of idle
connections the pool retains under the stored `maxIdleCount`. -/
def DB.maxIdleConnsLocked (db : DB) : Int :=
  if db.maxIdleCount = 0 then defaultMaxIdleConns
  else if db.maxIdleCount < 0 then 0
  else db.maxIdleCount

/-- The method `db.SetMaxIdleConns(n)` of `database/sql`, on the policy
fields: a positive `n` is stored, any other value is stored as `-1` (no idle
connection), and the result is reduced to `maxOpen` when that limit is set and
smaller.  The part that closes surplus idle connections does nothing here:
`openDB` calls the setter before any connection exists. -/
def DB.SetMaxIdleConns (db : DB) (n : Int) : DB :=
  let db := if n > 0 then { db with maxIdleCount := n } else { db with maxIdleCount := -1 }
  if db.maxOpen > 0 ∧ db.maxIdleConnsLocked > db.maxOpen then
    { db with maxIdleCount := db.maxOpen }
  else db

/-- The method `db.SetMaxOpenConns(n)` of `database/sql`, on the policy
fields: a negative `n` is stored as `0` (no limit), and the idle limit is
brought down to the new limit when it exceeds it. -/
def DB.SetMaxOpenConns (db : DB) (n : Int) : DB :=
  let db := { db with maxOpen := n }
  let db := if n < 0 then { db with maxOpen := 0 } else db
  if db.maxOpen > 0 ∧ db.maxIdleConnsLocked > db.maxOpen then db.SetMaxIdleConns n else db

/-- The method `db.SetConnMaxIdleTime(d)` of `database/sql`, on the policy
fields: a negative `d` is stored as `0`. -/
def DB.SetConnMaxIdleTime (db : DB) (d : Duration) : DB :=
  let d := if d < 0 then 0 else d
  { db with maxIdleTime := d }

/-- The handle `sql.Open` returns: every policy field at its zero value. -/
def DB.fresh (dsn : String) : DB :=
  { dsn := dsn, maxOpen := 0, maxIdleCount := 0, maxIdleTime := 0 }

/-- The handle `openDB` probes: opened on the configured data source, after
the three setters have been called with the two connection bounds of `cfg`
and the idle time `d`. -/
def policyHandle (cfg : config) (d : Duration) : DB :=
  (((DB.fresh cfg.db.dsn).SetMaxOpenConns cfg.db.maxOpenConns).SetMaxIdleConns
    cfg.db.maxIdleConns).SetConnMaxIdleTime d

/-- The two results of `openDB` and the steps it took. -/
structure OpenResult where
  db : Option DB
  err : Option Err
  trace : List Event
deriving DecidableEq, Repr

/-- The timeout handed to `context.WithTimeout` in `openDB`. -/
def pingTimeout : Duration := 5 * Second

/-- The function `openDB`. -/
def openDB (w : World) (cfg : config) : OpenResult :=
  match w.sqlOpen cfg.db.dsn with
  | some cause =>
    { db := none, err := some (.sqlOpen cause), trace := [.sqlOpen cfg.db.dsn (some cause)] }
  | none =>
    let db := DB.fresh cfg.db.dsn
    let db := db.SetMaxOpenConns cfg.db.maxOpenConns
    let db := db.SetMaxIdleConns cfg.db.maxIdleConns
    let t := [Event.sqlOpen cfg.db.dsn none, .setMaxOpenConns cfg.db.maxOpenConns,
      .setMaxIdleConns cfg.db.maxIdleConns]
    match w.parseDuration cfg.db.maxIdleTime with
    | .error cause =>
      { db := none, err := some (.parseDuration cause),
        trace := t ++ [.parseDuration cfg.db.maxIdleTime false] }
    | .ok duration =>
      let db := db.SetConnMaxIdleTime duration
      let t := t ++ [.parseDuration cfg.db.maxIdleTime true, .setConnMaxIdleTime duration]
      -- `defer cancel()` runs on both returns below
      match w.pingContext db pingTimeout with
      | some cause =>
        { db := none, err := some (.pingContext cause),
          trace := t ++ [.pingContext pingTimeout (some cause), .cancel] }
      | none =>
        { db := some db, err := none, trace := t ++ [.pingContext pingTimeout none, .cancel] }

/-! ## `main` -/

/-- How the process ends. -/
inductive Outcome
  /-- `main` returned: exit status 0. -/
  | returned
  /-- An unrecovered `panic`: the Go runtime prints the value and exits with status 2. -/
  | panicked (msg : String)
  /-- The process was terminated by `PrintFatal`, with a non-zero exit status. -/
  | fatalExit
deriving DecidableEq, Repr

/-- Whether the exit status is non-zero. -/
def Outcome.nonZero : Outcome → Bool
  | .returned => false
  | .panicked _ => true
  | .fatalExit => true

/-- A finished run of `main`. -/
structure Run where
  outcome : Outcome
  trace : List Event
deriving DecidableEq, Repr

/-- Modelled from the spec: `jsonlog.Logger.PrintFatal` (package
`internal/jsonlog` is not among the sources).  The spec has every such error
"logged with structured severity" and then cause "process termination with a
non-zero exit status": one fatal record is written, and the process ends
there, so no deferred call of `main` runs afterwards. -/
def PrintFatal (trace : List Event) (err : Err) : Run :=
  { outcome := .fatalExit, trace := trace ++ [.printFatal err] }

/-- The panic value of the empty-DSN guard. -/
def missingDsnMessage : String :=
  "database dsn was not provided neither in .env file nor as a -db-dsn flag"

/-- The body of `main` from the DSN guard on (lines 62 to 89), run on the
configuration `conf` that `flag.Parse()` left. -/
def bootstrap (w : World) (conf : config) : Run :=
  -- `len(conf.db.dsn) == 0`; a string has no bytes exactly when it has no characters
  if conf.db.dsn.length = 0 then
    { outcome := .panicked missingDsnMessage, trace := [] }
  else
    let t := [Event.println conf.port]
    let r := openDB w conf
    let t := t ++ r.trace
    match r.err with
    | some err => PrintFatal t err
    | none =>
      -- `defer db.Close()`: runs when `main` returns, not when the process is terminated
      let t := t ++ [.printInfo "database connection established", .newModels]
      match w.serve conf with
      | some cause => PrintFatal (t ++ [.serve (some cause)]) (.serve cause)
      | none =>
        match r.db with
        | some _ => { outcome := .returned, trace := t ++ [.serve none, .close] }
        | none =>
          -- `Close` on a nil handle
          { outcome := .panicked "runtime error: invalid memory address or nil pointer dereference",
            trace := t ++ [.serve none] }

/-- The function `main`. -/
def main (w : World) (args : List Flag) : Run :=
  bootstrap w (resolveConfig w args)

/-! ## Trace vocabulary -/

/-- A pool was allocated: `sql.Open` returned without error. -/
def Event.isAllocation : Event → Bool
  | .sqlOpen _ none => true
  | _ => false

/-- A release of the pool. -/
def Event.isClose : Event → Bool
  | .close => true
  | _ => false

/-- A liveness probe, whatever its result. -/
def Event.isProbe : Event → Bool
  | .pingContext _ _ => true
  | _ => false

/-- A fatal log record. -/
def Event.isFatalRecord : Event → Bool
  | .printFatal _ => true
  | _ => false

/-- A failed allocation, a failed duration parse or a failed probe. -/
def Event.isOpenFailure : Event → Bool
  | .sqlOpen _ (some _) => true
  | .parseDuration _ false => true
  | .pingContext _ (some _) => true
  | _ => false

/-- Construction of the domain services, or the start of the listener. -/
def Event.isService : Event → Bool
  | .newModels => true
  | .serve _ => true
  | _ => false

/-! ## Sample worlds and configurations -/

/-- A store that is up: every call succeeds; `"15m"` and `"10s"` are the
durations that parse. -/
def healthyWorld : World :=
  { environ := fun _ => none
    sqlOpen := fun _ => none
    parseDuration := fun s =>
      if s = "15m" then .ok (900 * Second)
      else if s = "10s" then .ok (10 * Second)
      else .error ("time: invalid duration " ++ s)
    pingContext := fun _ _ => none
    serve := fun _ => none }

/-- As `healthyWorld`, with `DB_DSN` set in the environment. -/
def healthyWorldWithEnv : World :=
  { healthyWorld with
    environ := fun k => if k = "DB_DSN" then some "postgres://greenlight@localhost/greenlight" else none }

/-- A world whose store does not answer the probe. -/
def unreachableStoreWorld : World :=
  { healthyWorld with pingContext := fun _ _ => some "context deadline exceeded" }

/-- A world whose listener fails. -/
def failingListenerWorld : World :=
  { healthyWorld with serve := fun _ => some "listen tcp :4000: bind: address already in use" }

/-- A configuration with a data source name and an idle time without a unit. -/
def badIdleConfig : config :=
  { flagDefaults "postgres://greenlight@localhost/greenlight" with
    db := { dsn := "postgres://greenlight@localhost/greenlight", maxOpenConns := 25,
            maxIdleConns := 0, maxIdleTime := "15" } }

/-- The configuration of `-db-max-open-conns=10` on a given data source, the
other flags at their defaults: the idle bound, 25, exceeds the open bound. -/
def tenOpenConfig : config :=
  { flagDefaults "postgres://greenlight@localhost/greenlight" with
    db := { dsn := "postgres://greenlight@localhost/greenlight", maxOpenConns := 10,
            maxIdleConns := 25, maxIdleTime := "15m" } }

/-- The default configuration on a given data source, retaining no idle connection. -/
def noIdleConfig : config :=
  { flagDefaults "postgres://greenlight@localhost/greenlight" with
    db := { dsn := "postgres://greenlight@localhost/greenlight", maxOpenConns := 25,
            maxIdleConns := 0, maxIdleTime := "10s" } }

/-! ## Auxiliary facts -/

theorem length_zero_iff (s : String) : s.length = 0 ↔ s = "" := by
  constructor
  · intro h
    apply String.ext
    have h2 : s.data.length = 0 := h
    exact List.length_eq_zero.mp h2
  · rintro rfl
    rfl

/-- A block of events none of which satisfies `p` lies wholly before any
occurrence of an event that does. -/
theorem prefix_of_split {α : Type} (p : α → Bool) {x : α} (hx : p x = true) :
    ∀ (A rest pre post : List α), (∀ e ∈ A, p e = false) →
      A ++ rest = pre ++ x :: post → A <+: pre
  | [], _, pre, _, _, _ => List.nil_prefix
  | a :: A, rest, [], post, hA, h => by
    simp at h
    have hpa := hA a (by simp)
    rw [h.1] at hpa
    simp [hx] at hpa
  | a :: A, rest, b :: pre, post, hA, h => by
    simp at h
    obtain ⟨rfl, h⟩ := h
    have ih := prefix_of_split p hx A rest pre post (fun e he => hA e (by simp [he])) h
    exact (List.prefix_cons_inj a).mpr ih

/-! ### The four ways through `openDB` -/

theorem openDB_alloc_failed (w : World) (cfg : config) (c : String)
    (h : w.sqlOpen cfg.db.dsn = some c) :
    openDB w cfg =
      { db := none, err := some (.sqlOpen c), trace := [.sqlOpen cfg.db.dsn (some c)] } := by
  simp [openDB, h]

theorem openDB_parse_failed (w : World) (cfg : config) (c : String)
    (h1 : w.sqlOpen cfg.db.dsn = none) (h2 : w.parseDuration cfg.db.maxIdleTime = .error c) :
    openDB w cfg =
      { db := none, err := some (.parseDuration c),
        trace := [.sqlOpen cfg.db.dsn none, .setMaxOpenConns cfg.db.maxOpenConns,
          .setMaxIdleConns cfg.db.maxIdleConns, .parseDuration cfg.db.maxIdleTime false] } := by
  simp [openDB, h1, h2]

theorem openDB_probe_failed (w : World) (cfg : config) (d : Duration) (c : String)
    (h1 : w.sqlOpen cfg.db.dsn = none) (h2 : w.parseDuration cfg.db.maxIdleTime = .ok d)
    (h3 : w.pingContext (policyHandle cfg d) pingTimeout = some c) :
    openDB w cfg =
      { db := none, err := some (.pingContext c),
        trace := [.sqlOpen cfg.db.dsn none, .setMaxOpenConns cfg.db.maxOpenConns,
          .setMaxIdleConns cfg.db.maxIdleConns, .parseDuration cfg.db.maxIdleTime true,
          .setConnMaxIdleTime d, .pingContext pingTimeout (some c), .cancel] } := by
  simp only [policyHandle] at h3
  simp [openDB, h1, h2, h3]

theorem openDB_succeeded (w : World) (cfg : config) (d : Duration)
    (h1 : w.sqlOpen cfg.db.dsn = none) (h2 : w.parseDuration cfg.db.maxIdleTime = .ok d)
    (h3 : w.pingContext (policyHandle cfg d) pingTimeout = none) :
    openDB w cfg =
      { db := some (policyHandle cfg d), err := none,
        trace := [.sqlOpen cfg.db.dsn none, .setMaxOpenConns cfg.db.maxOpenConns,
          .setMaxIdleConns cfg.db.maxIdleConns, .parseDuration cfg.db.maxIdleTime true,
          .setConnMaxIdleTime d, .pingContext pingTimeout none, .cancel] } := by
  simp only [policyHandle] at h3
  simp [openDB, h1, h2, h3, policyHandle]

/-- Every call of `openDB` takes one of the four ways. -/
theorem openDB_cases (w : World) (cfg : config) :
    (∃ c, w.sqlOpen cfg.db.dsn = some c) ∨
    (w.sqlOpen cfg.db.dsn = none ∧ ∃ c, w.parseDuration cfg.db.maxIdleTime = .error c) ∨
    (w.sqlOpen cfg.db.dsn = none ∧ ∃ d, w.parseDuration cfg.db.maxIdleTime = .ok d ∧
      ∃ c, w.pingContext (policyHandle cfg d) pingTimeout = some c) ∨
    (w.sqlOpen cfg.db.dsn = none ∧ ∃ d, w.parseDuration cfg.db.maxIdleTime = .ok d ∧
      w.pingContext (policyHandle cfg d) pingTimeout = none) := by
  cases h1 : w.sqlOpen cfg.db.dsn with
  | some c => exact Or.inl ⟨c, rfl⟩
  | none =>
    right
    cases h2 : w.parseDuration cfg.db.maxIdleTime with
    | error c => exact Or.inl ⟨rfl, c, rfl⟩
    | ok d =>
      right
      cases h3 : w.pingContext (policyHandle cfg d) pingTimeout with
      | some c => exact Or.inl ⟨rfl, d, rfl, c, h3⟩
      | none => exact Or.inr ⟨rfl, d, rfl, h3⟩

/-! ### The four ways through `main` -/

theorem bootstrap_missing_dsn (w : World) (conf : config) (h : conf.db.dsn = "") :
    bootstrap w conf = { outcome := .panicked missingDsnMessage, trace := [] } := by
  have h0 : conf.db.dsn.length = 0 := (length_zero_iff _).mpr h
  simp [bootstrap, h0]

theorem bootstrap_open_failed (w : World) (conf : config) (e : Err)
    (h : conf.db.dsn ≠ "") (he : (openDB w conf).err = some e) :
    bootstrap w conf =
      { outcome := .fatalExit,
        trace := Event.println conf.port :: ((openDB w conf).trace ++ [.printFatal e]) } := by
  have h0 : ¬ conf.db.dsn.length = 0 := fun h0 => h ((length_zero_iff _).mp h0)
  simp [bootstrap, h0, he, PrintFatal]

theorem bootstrap_listener_failed (w : World) (conf : config) (c : String)
    (h : conf.db.dsn ≠ "") (he : (openDB w conf).err = none) (hs : w.serve conf = some c) :
    bootstrap w conf =
      { outcome := .fatalExit,
        trace := Event.println conf.port :: ((openDB w conf).trace ++
          [.printInfo "database connection established", .newModels, .serve (some c),
            .printFatal (.serve c)]) } := by
  have h0 : ¬ conf.db.dsn.length = 0 := fun h0 => h ((length_zero_iff _).mp h0)
  simp [bootstrap, h0, he, hs, PrintFatal]

theorem bootstrap_graceful (w : World) (conf : config) (hdl : DB)
    (h : conf.db.dsn ≠ "") (he : (openDB w conf).err = none)
    (hdb : (openDB w conf).db = some hdl) (hs : w.serve conf = none) :
    bootstrap w conf =
      { outcome := .returned,
        trace := Event.println conf.port :: ((openDB w conf).trace ++
          [.printInfo "database connection established", .newModels, .serve none,
            .close]) } := by
  have h0 : ¬ conf.db.dsn.length = 0 := fun h0 => h ((length_zero_iff _).mp h0)
  simp [bootstrap, h0, he, hs, hdb]

/-- When `openDB` reports no error it hands back a handle. -/
theorem openDB_handle_of_no_error (w : World) (cfg : config)
    (he : (openDB w cfg).err = none) : ∃ hdl, (openDB w cfg).db = some hdl := by
  rcases openDB_cases w cfg with ⟨c, h1⟩ | ⟨h1, c, h2⟩ | ⟨h1, d, h2, c, h3⟩ | ⟨h1, d, h2, h3⟩
  · rw [openDB_alloc_failed w cfg c h1] at he
    simp at he
  · rw [openDB_parse_failed w cfg c h1 h2] at he
    simp at he
  · rw [openDB_probe_failed w cfg d c h1 h2 h3] at he
    simp at he
  · exact ⟨policyHandle cfg d, by rw [openDB_succeeded w cfg d h1 h2 h3]⟩

/-- The steps of `openDB` hold no service construction and no listener start. -/
theorem openDB_trace_no_service (w : World) (cfg : config) :
    ∀ e ∈ (openDB w cfg).trace, e.isService = false := by
  rcases openDB_cases w cfg with ⟨c, h1⟩ | ⟨h1, c, h2⟩ | ⟨h1, d, h2, c, h3⟩ | ⟨h1, d, h2, h3⟩
  · rw [openDB_alloc_failed w cfg c h1]
    simp [Event.isService]
  · rw [openDB_parse_failed w cfg c h1 h2]
    simp [Event.isService]
  · rw [openDB_probe_failed w cfg d c h1 h2 h3]
    simp [Event.isService]
  · rw [openDB_succeeded w cfg d h1 h2 h3]
    simp [Event.isService]

/-- When `openDB` reports no error, none of its steps failed and one of them
is a probe that succeeded. -/
theorem openDB_trace_of_no_error (w : World) (cfg : config)
    (he : (openDB w cfg).err = none) :
    Event.pingContext pingTimeout none ∈ (openDB w cfg).trace ∧
      ∀ e ∈ (openDB w cfg).trace, e.isOpenFailure = false := by
  rcases openDB_cases w cfg with ⟨c, h1⟩ | ⟨h1, c, h2⟩ | ⟨h1, d, h2, c, h3⟩ | ⟨h1, d, h2, h3⟩
  · rw [openDB_alloc_failed w cfg c h1] at he
    simp at he
  · rw [openDB_parse_failed w cfg c h1 h2] at he
    simp at he
  · rw [openDB_probe_failed w cfg d c h1 h2 h3] at he
    simp at he
  · rw [openDB_succeeded w cfg d h1 h2 h3]
    simp [Event.isOpenFailure]

/-- The last element of a list that ends in `x`. -/
theorem getLast?_cons_append_snoc {α : Type} (a : α) (l m : List α) (x : α) :
    (a :: (l ++ (m ++ [x]))).getLast? = some x := by
  have h : a :: (l ++ (m ++ [x])) = (a :: (l ++ m)) ++ [x] := by simp
  rw [h, List.getLast?_append]
  simp

/-- The steps of `openDB` write no fatal log record. -/
theorem openDB_trace_no_fatal (w : World) (cfg : config) :
    (openDB w cfg).trace.countP Event.isFatalRecord = 0 := by
  rcases openDB_cases w cfg with ⟨c, h1⟩ | ⟨h1, c, h2⟩ | ⟨h1, d, h2, c, h3⟩ | ⟨h1, d, h2, h3⟩
  · rw [openDB_alloc_failed w cfg c h1]
    simp [Event.isFatalRecord]
  · rw [openDB_parse_failed w cfg c h1 h2]
    simp [Event.isFatalRecord]
  · rw [openDB_probe_failed w cfg d c h1 h2 h3]
    simp [Event.isFatalRecord]
  · rw [openDB_succeeded w cfg d h1 h2 h3]
    simp [Event.isFatalRecord]

/-- Reading one variable after `flag.Parse`: the last value supplied for it,
or the value it held before. -/
theorem foldl_assign_field {α : Type} (proj : config → α) (pick : Flag → Option α)
    (hstep : ∀ c f, proj (Flag.assign c f) = (pick f).getD (proj c)) (dflt : α) :
    ∀ (args : List Flag) (c : config) (acc : Option α), proj c = acc.getD dflt →
      proj (args.foldl Flag.assign c) =
        (args.foldl (fun acc f => match pick f with
          | some v => some v
          | none => acc) acc).getD dflt
  | [], c, acc, h => by simpa using h
  | f :: args, c, acc, h => by
    simp only [List.foldl_cons]
    apply foldl_assign_field proj pick hstep dflt args
    rw [hstep]
    cases hp : pick f with
    | some v => simp
    | none => simpa using h

/-- The field form of `foldl_assign_field` for a resolved configuration. -/
theorem resolveConfig_field {α : Type} (proj : config → α) (pick : Flag → Option α)
    (hstep : ∀ c f, proj (Flag.assign c f) = (pick f).getD (proj c))
    (w : World) (args : List Flag) :
    proj (resolveConfig w args) =
      (supplied pick args).getD (proj (flagDefaults (MustGet w.environ "DB_DSN"))) :=
  foldl_assign_field proj pick hstep _ args _ none rfl

/-- The steps of `openDB` never release the pool. -/
theorem openDB_trace_no_close (w : World) (cfg : config) :
    (openDB w cfg).trace.countP Event.isClose = 0 := by
  rcases openDB_cases w cfg with ⟨c, h1⟩ | ⟨h1, c, h2⟩ | ⟨h1, d, h2, c, h3⟩ | ⟨h1, d, h2, h3⟩
  · rw [openDB_alloc_failed w cfg c h1]
    simp [Event.isClose]
  · rw [openDB_parse_failed w cfg c h1 h2]
    simp [Event.isClose]
  · rw [openDB_probe_failed w cfg d c h1 h2 h3]
    simp [Event.isClose]
  · rw [openDB_succeeded w cfg d h1 h2 h3]
    simp [Event.isClose]

/-- A run of `main` releases the pool once when `main` returns, and not at
all when the process ends any other way. -/
theorem main_close_count (w : World) (args : List Flag) :
    (main w args).trace.countP Event.isClose =
      if (main w args).outcome = .returned then 1 else 0 := by
  unfold main
  generalize resolveConfig w args = conf
  have hnc := openDB_trace_no_close w conf
  by_cases hd : conf.db.dsn = ""
  · rw [bootstrap_missing_dsn w conf hd]
    simp
  · cases he : (openDB w conf).err with
    | some e =>
      rw [bootstrap_open_failed w conf e hd he]
      simp [List.countP_cons, List.countP_append, hnc, Event.isClose]
    | none =>
      obtain ⟨hdl, hdb⟩ := openDB_handle_of_no_error w conf he
      cases hs : w.serve conf with
      | some c =>
        rw [bootstrap_listener_failed w conf c hd he hs]
        simp [List.countP_cons, List.countP_append, hnc, Event.isClose]
      | none =>
        rw [bootstrap_graceful w conf hdl hd he hdb hs]
        simp [List.countP_cons, List.countP_append, hnc, Event.isClose]

/-- What `SetMaxIdleConns` leaves on the handle. -/
theorem SetMaxIdleConns_fields (db : DB) (n : Int) :
    (db.SetMaxIdleConns n).dsn = db.dsn ∧ (db.SetMaxIdleConns n).maxOpen = db.maxOpen ∧
      (db.SetMaxIdleConns n).maxIdleTime = db.maxIdleTime ∧
      (db.SetMaxIdleConns n).maxIdleConnsLocked =
        (if 0 < db.maxOpen then min (max n 0) db.maxOpen else max n 0) := by
  unfold DB.SetMaxIdleConns
  by_cases hn : n > 0
  · by_cases ho : db.maxOpen > 0
    · by_cases hc : n > db.maxOpen
      · have h0 : ¬ n = 0 := by omega
        have h1 : ¬ n < 0 := by omega
        have h2 : ¬ db.maxOpen = 0 := by omega
        have h3 : ¬ db.maxOpen < 0 := by omega
        simp [hn, ho, hc, DB.maxIdleConnsLocked, h0, h1, h2, h3]
        omega
      · have h0 : ¬ n = 0 := by omega
        have h1 : ¬ n < 0 := by omega
        simp [hn, ho, hc, DB.maxIdleConnsLocked, h0, h1]
        omega
    · have h0 : ¬ n = 0 := by omega
      have h1 : ¬ n < 0 := by omega
      simp [hn, ho, DB.maxIdleConnsLocked, h0, h1]
      omega
  · by_cases ho : db.maxOpen > 0
    · have h3 : ¬ (0 > db.maxOpen) := by omega
      simp [hn, ho, DB.maxIdleConnsLocked, h3]
      omega
    · simp [hn, ho, DB.maxIdleConnsLocked]
      omega

/-- What `SetMaxOpenConns` leaves on the handle. -/
theorem SetMaxOpenConns_fields (db : DB) (n : Int) :
    (db.SetMaxOpenConns n).dsn = db.dsn ∧ (db.SetMaxOpenConns n).maxOpen = max n 0 ∧
      (db.SetMaxOpenConns n).maxIdleTime = db.maxIdleTime := by
  unfold DB.SetMaxOpenConns
  by_cases hn : n < 0
  · have h1 : ¬ (0 : Int) > 0 := by omega
    simp [hn, h1]
    omega
  · simp only [hn, if_false]
    split_ifs with hc
    · obtain ⟨h1, h2, h3, _⟩ := SetMaxIdleConns_fields { db with maxOpen := n } n
      refine ⟨h1, ?_, h3⟩
      rw [h2]
      simp
      omega
    · refine ⟨rfl, ?_, rfl⟩
      simp
      omega

/-- The policy fields of the handle after the three setters of `openDB`. -/
theorem policyHandle_fields (cfg : config) (d : Duration) :
    (policyHandle cfg d).dsn = cfg.db.dsn ∧
      (policyHandle cfg d).maxOpen = max cfg.db.maxOpenConns 0 ∧
      (policyHandle cfg d).maxIdleConnsLocked =
        (if 0 < cfg.db.maxOpenConns then
          min (max cfg.db.maxIdleConns 0) cfg.db.maxOpenConns
        else max cfg.db.maxIdleConns 0) ∧
      (policyHandle cfg d).maxIdleTime = max d 0 := by
  obtain ⟨o1, o2, _⟩ := SetMaxOpenConns_fields (DB.fresh cfg.db.dsn) cfg.db.maxOpenConns
  obtain ⟨i1, i2, _, i4⟩ := SetMaxIdleConns_fields
    ((DB.fresh cfg.db.dsn).SetMaxOpenConns cfg.db.maxOpenConns) cfg.db.maxIdleConns
  have e1 : (policyHandle cfg d).dsn =
      (((DB.fresh cfg.db.dsn).SetMaxOpenConns cfg.db.maxOpenConns).SetMaxIdleConns
        cfg.db.maxIdleConns).dsn := rfl
  have e2 : (policyHandle cfg d).maxOpen =
      (((DB.fresh cfg.db.dsn).SetMaxOpenConns cfg.db.maxOpenConns).SetMaxIdleConns
        cfg.db.maxIdleConns).maxOpen := rfl
  have e3 : (policyHandle cfg d).maxIdleConnsLocked =
      (((DB.fresh cfg.db.dsn).SetMaxOpenConns cfg.db.maxOpenConns).SetMaxIdleConns
        cfg.db.maxIdleConns).maxIdleConnsLocked := rfl
  have e4 : (policyHandle cfg d).maxIdleTime = if d < 0 then 0 else d := rfl
  refine ⟨?_, ?_, ?_, ?_⟩
  · rw [e1, i1, o1]
    rfl
  · rw [e2, i2, o2]
  · rw [e3, i4, o2]
    have hlt : (0 < max cfg.db.maxOpenConns 0) ↔ 0 < cfg.db.maxOpenConns := by omega
    by_cases ho : 0 < cfg.db.maxOpenConns
    · have hm : max cfg.db.maxOpenConns 0 = cfg.db.maxOpenConns := by omega
      simp [ho, hm]
    · have hm : ¬ 0 < max cfg.db.maxOpenConns 0 := by omega
      simp [ho, hm]
  · rw [e4]
    split_ifs with hneg
    · exact (max_eq_right (le_of_lt hneg)).symm
    · exact (max_eq_left (not_lt.mp hneg)).symm

/-! ## The claims -/

/-- C1. When the data source name is empty after the environment default
and the `-db-dsn` flag have been merged, `main` ends in the panic of the
missing-DSN guard and has taken no step at all: `openDB` is not called, so
there is no pool allocation and no probe. -/
theorem C1_missing_dsn_aborts_before_openDB (w : World) (args : List Flag)
    (h : (resolveConfig w args).db.dsn = "") :
    (main w args).outcome = .panicked missingDsnMessage ∧
      (main w args).outcome.nonZero = true ∧
      (main w args).trace = [] ∧
      (∀ e ∈ (main w args).trace, e.isAllocation = false ∧ e.isProbe = false) := by
  have hb := bootstrap_missing_dsn w (resolveConfig w args) h
  simp [main, hb, Outcome.nonZero]

/-- C1 at a concrete run: no `DB_DSN` in the environment, and an explicit
empty `-db-dsn`. -/
theorem C1_missing_dsn_witness :
    (resolveConfig healthyWorld [.port 8080, .dbDsn ""]).db.dsn = "" ∧
      (main healthyWorld [.port 8080, .dbDsn ""]).outcome = .panicked missingDsnMessage ∧
      (main healthyWorld [.port 8080, .dbDsn ""]).outcome.nonZero = true ∧
      (main healthyWorld [.port 8080, .dbDsn ""]).trace = [] ∧
      (∀ e ∈ (main healthyWorld [.port 8080, .dbDsn ""]).trace,
        e.isAllocation = false ∧ e.isProbe = false) :=
  ⟨by decide, C1_missing_dsn_aborts_before_openDB healthyWorld [.port 8080, .dbDsn ""] (by decide)⟩

/-- C2. In every run of `main`: whenever the listener is started, `openDB`
had returned a handle with no error and a successful probe stands earlier in
the trace; and no failed allocation, failed duration parse or failed probe is
ever followed by the construction of the domain services or by the listener. -/
theorem C2_listener_only_after_successful_probe (w : World) (args : List Flag) :
    (∀ pre post r, (main w args).trace = pre ++ Event.serve r :: post →
        (∃ hdl, (openDB w (resolveConfig w args)).db = some hdl) ∧
        (openDB w (resolveConfig w args)).err = none ∧
        Event.pingContext pingTimeout none ∈ pre) ∧
    (main w args).trace.Pairwise
      (fun a b => a.isOpenFailure = true → b.isService = false) := by
  unfold main
  generalize resolveConfig w args = conf
  by_cases hd : conf.db.dsn = ""
  · rw [bootstrap_missing_dsn w conf hd]
    simp
  · have hns := openDB_trace_no_service w conf
    cases he : (openDB w conf).err with
    | some e =>
      rw [bootstrap_open_failed w conf e hd he]
      dsimp only
      constructor
      · intro pre post r hsplit
        have hmem : Event.serve r ∈
            Event.println conf.port :: ((openDB w conf).trace ++ [Event.printFatal e]) := by
          rw [hsplit]
          simp
        simp at hmem
        have hsv := hns _ hmem
        simp [Event.isService] at hsv
      · apply List.Pairwise.imp_of_mem (R := fun _ _ => True)
        · intro a b _ hb _ _
          simp only [List.mem_cons, List.mem_append, List.not_mem_nil, or_false] at hb
          rcases hb with rfl | hb | rfl
          · rfl
          · exact hns b hb
          · rfl
        · exact List.pairwise_of_forall (fun _ _ => trivial)
    | none =>
      obtain ⟨hdl, hdb⟩ := openDB_handle_of_no_error w conf he
      obtain ⟨hping, hnf⟩ := openDB_trace_of_no_error w conf he
      have key : ∀ tail : List Event,
          (∀ pre post r,
            Event.println conf.port :: ((openDB w conf).trace ++
              (Event.printInfo "database connection established" :: Event.newModels :: tail))
              = pre ++ Event.serve r :: post →
            Event.pingContext pingTimeout none ∈ pre) := by
        intro tail pre post r hsplit
        have hpre := prefix_of_split (fun e : Event => match e with
            | .serve _ => true
            | _ => false) (x := Event.serve r) rfl
          (Event.println conf.port :: (openDB w conf).trace)
          (Event.printInfo "database connection established" :: Event.newModels :: tail)
          pre post
          (by
            intro e hmem
            simp only [List.mem_cons] at hmem
            rcases hmem with rfl | hmem
            · rfl
            · have hsv := hns e hmem
              cases e <;> simp_all [Event.isService])
          (by simpa using hsplit)
        exact hpre.subset (by simp [hping])
      have pw : ∀ tail : List Event, (∀ e ∈ tail, e.isOpenFailure = false) →
          (Event.println conf.port :: ((openDB w conf).trace ++ tail)).Pairwise
            (fun a b => a.isOpenFailure = true → b.isService = false) := by
        intro tail htail
        apply List.Pairwise.imp_of_mem (R := fun _ _ => True)
        · intro a b ha _ _ hfa
          simp only [List.mem_cons, List.mem_append] at ha
          rcases ha with rfl | ha | ha
          · simp [Event.isOpenFailure] at hfa
          · rw [hnf a ha] at hfa
            cases hfa
          · rw [htail a ha] at hfa
            cases hfa
        · exact List.pairwise_of_forall (fun _ _ => trivial)
      cases hs : w.serve conf with
      | some c =>
        rw [bootstrap_listener_failed w conf c hd he hs]
        dsimp only
        refine ⟨fun pre post r hsplit => ⟨⟨hdl, hdb⟩, rfl, key _ pre post r hsplit⟩, ?_⟩
        exact pw _ (by simp [Event.isOpenFailure])
      | none =>
        rw [bootstrap_graceful w conf hdl hd he hdb hs]
        dsimp only
        refine ⟨fun pre post r hsplit => ⟨⟨hdl, hdb⟩, rfl, key _ pre post r hsplit⟩, ?_⟩
        exact pw _ (by simp [Event.isOpenFailure])

/-- C3. `openDB` returns a handle and a nil error exactly when the pool
allocation, the parse of the idle duration and the liveness probe all
succeed; it never returns both or neither; and when a step fails it returns
no handle and the error value of the first failing step, unchanged. -/
theorem C3_openDB_handle_iff_all_steps_succeed (w : World) (cfg : config) :
    (((∃ hdl, (openDB w cfg).db = some hdl) ∧ (openDB w cfg).err = none) ↔
      (w.sqlOpen cfg.db.dsn = none ∧
        ∃ d, w.parseDuration cfg.db.maxIdleTime = .ok d ∧
          w.pingContext (policyHandle cfg d) pingTimeout = none)) ∧
    ((openDB w cfg).db = none ↔ ∃ e, (openDB w cfg).err = some e) ∧
    (∀ c, w.sqlOpen cfg.db.dsn = some c →
      (openDB w cfg).db = none ∧ (openDB w cfg).err = some (.sqlOpen c)) ∧
    (∀ c, w.sqlOpen cfg.db.dsn = none → w.parseDuration cfg.db.maxIdleTime = .error c →
      (openDB w cfg).db = none ∧ (openDB w cfg).err = some (.parseDuration c)) ∧
    (∀ d c, w.sqlOpen cfg.db.dsn = none → w.parseDuration cfg.db.maxIdleTime = .ok d →
      w.pingContext (policyHandle cfg d) pingTimeout = some c →
      (openDB w cfg).db = none ∧ (openDB w cfg).err = some (.pingContext c)) := by
  refine ⟨?_, ?_, ?_, ?_, ?_⟩
  · rcases openDB_cases w cfg with ⟨c, h1⟩ | ⟨h1, c, h2⟩ | ⟨h1, d, h2, c, h3⟩ | ⟨h1, d, h2, h3⟩
    · rw [openDB_alloc_failed w cfg c h1]
      simp [h1]
    · rw [openDB_parse_failed w cfg c h1 h2]
      simp [h2]
    · rw [openDB_probe_failed w cfg d c h1 h2 h3]
      simp [h2, h3]
    · rw [openDB_succeeded w cfg d h1 h2 h3]
      simp [h1, h2, h3]
  · rcases openDB_cases w cfg with ⟨c, h1⟩ | ⟨h1, c, h2⟩ | ⟨h1, d, h2, c, h3⟩ | ⟨h1, d, h2, h3⟩
    · rw [openDB_alloc_failed w cfg c h1]
      simp
    · rw [openDB_parse_failed w cfg c h1 h2]
      simp
    · rw [openDB_probe_failed w cfg d c h1 h2 h3]
      simp
    · rw [openDB_succeeded w cfg d h1 h2 h3]
      simp
  · intro c h1
    rw [openDB_alloc_failed w cfg c h1]
    exact ⟨rfl, rfl⟩
  · intro c h1 h2
    rw [openDB_parse_failed w cfg c h1 h2]
    exact ⟨rfl, rfl⟩
  · intro d c h1 h2 h3
    rw [openDB_probe_failed w cfg d c h1 h2 h3]
    exact ⟨rfl, rfl⟩

/-- C4. When the idle-time string does not parse, `openDB` returns no handle
and the error of the duration parse, a configuration error, and the call
issues no liveness probe, whatever the data source name and whatever the
store would have answered.  The allocation step before the parse is
`sql.Open` on the registered `lib/pq` driver, which answers nil for every
data source name; that is hypothesis `h1`. -/
theorem C4_bad_idle_time_fails_before_probe (w : World) (cfg : config) (c : String)
    (h1 : w.sqlOpen cfg.db.dsn = none)
    (h : w.parseDuration cfg.db.maxIdleTime = .error c) :
    (openDB w cfg).db = none ∧
      (openDB w cfg).err = some (.parseDuration c) ∧
      (∀ e ∈ (openDB w cfg).trace, e.isProbe = false) ∧
      (∀ t r, Event.pingContext t r ∉ (openDB w cfg).trace) ∧
      (openDB w cfg).trace.getLast? = some (.parseDuration cfg.db.maxIdleTime false) := by
  rw [openDB_parse_failed w cfg c h1 h]
  simp [Event.isProbe]

/-- C4 at a concrete call: the idle time `"15"` has no unit, and the store
would have answered the probe. -/
theorem C4_bad_idle_time_witness :
    healthyWorld.pingContext (policyHandle badIdleConfig 15) pingTimeout = none ∧
      (openDB healthyWorld badIdleConfig).db = none ∧
      (openDB healthyWorld badIdleConfig).err
        = some (.parseDuration "time: invalid duration 15") ∧
      (∀ e ∈ (openDB healthyWorld badIdleConfig).trace, e.isProbe = false) ∧
      (∀ t r, Event.pingContext t r ∉ (openDB healthyWorld badIdleConfig).trace) ∧
      (openDB healthyWorld badIdleConfig).trace.getLast?
        = some (.parseDuration badIdleConfig.db.maxIdleTime false) :=
  ⟨rfl, C4_bad_idle_time_fails_before_probe healthyWorld badIdleConfig
    "time: invalid duration 15" rfl rfl⟩

/-- C5, evaluated on the failure paths: with an idle time that does not
parse, and with a store that does not answer the probe, a pool is allocated
and the run ends without a single release; the graceful run releases once. -/
theorem C5_pool_not_released_on_openDB_failure :
    ((main healthyWorldWithEnv [.dbMaxIdleTime "abc"]).outcome = .fatalExit ∧
      (main healthyWorldWithEnv [.dbMaxIdleTime "abc"]).trace.countP Event.isAllocation = 1 ∧
      (main healthyWorldWithEnv [.dbMaxIdleTime "abc"]).trace.countP Event.isClose = 0) ∧
    ((main unreachableStoreWorld [.dbDsn "postgres://db.invalid/greenlight"]).outcome
        = .fatalExit ∧
      (main unreachableStoreWorld [.dbDsn "postgres://db.invalid/greenlight"]).trace.countP
        Event.isAllocation = 1 ∧
      (main unreachableStoreWorld [.dbDsn "postgres://db.invalid/greenlight"]).trace.countP
        Event.isClose = 0) ∧
    ((main healthyWorldWithEnv []).outcome = .returned ∧
      (main healthyWorldWithEnv []).trace.countP Event.isAllocation = 1 ∧
      (main healthyWorldWithEnv []).trace.countP Event.isClose = 1) := by
  decide

/-- C9. Every liveness probe `openDB` issues carries the timeout of 5
seconds (5 000 000 000 ns), a constant that no configuration field enters,
and a call of `openDB` issues at most one probe. -/
theorem C9_probe_timeout_five_seconds_single_probe (w : World) (cfg : config) :
    (∀ t r, Event.pingContext t r ∈ (openDB w cfg).trace → t = 5000000000) ∧
      (openDB w cfg).trace.countP Event.isProbe ≤ 1 ∧
      pingTimeout = 5 * Second ∧ Second = 1000000000 := by
  refine ⟨?_, ?_, rfl, rfl⟩
  · rcases openDB_cases w cfg with ⟨c, h1⟩ | ⟨h1, c, h2⟩ | ⟨h1, d, h2, c, h3⟩ | ⟨h1, d, h2, h3⟩
    · rw [openDB_alloc_failed w cfg c h1]
      simp
    · rw [openDB_parse_failed w cfg c h1 h2]
      simp
    · rw [openDB_probe_failed w cfg d c h1 h2 h3]
      simp [pingTimeout, Second]
    · rw [openDB_succeeded w cfg d h1 h2 h3]
      simp [pingTimeout, Second]
  · rcases openDB_cases w cfg with ⟨c, h1⟩ | ⟨h1, c, h2⟩ | ⟨h1, d, h2, c, h3⟩ | ⟨h1, d, h2, h3⟩
    · rw [openDB_alloc_failed w cfg c h1]
      simp [Event.isProbe]
    · rw [openDB_parse_failed w cfg c h1 h2]
      simp [List.countP_cons, Event.isProbe]
    · rw [openDB_probe_failed w cfg d c h1 h2 h3]
      simp [List.countP_cons, Event.isProbe]
    · rw [openDB_succeeded w cfg d h1 h2 h3]
      simp [List.countP_cons, Event.isProbe]

/-- C10, as stated, fails: with `-db-max-open-conns=10` and the default idle
bound of 25, `openDB` returns a handle whose idle bound is 10, not the
configured 25; and with a negative open bound the handle records 0. -/
theorem C10_counterexample_idle_bound_reduced_to_open_bound :
    tenOpenConfig.db.maxIdleConns = 25 ∧
      (openDB healthyWorld tenOpenConfig).db.map DB.maxIdleCount = some 10 ∧
      (openDB healthyWorld tenOpenConfig).db.map DB.maxIdleConnsLocked = some 10 ∧
      (openDB healthyWorld (resolveConfig healthyWorldWithEnv [.dbMaxOpenConns (-1)])).db.map
        DB.maxOpen = some 0 := by
  decide

/-- C10, amended. For a handle returned by `openDB`: the three setters were
called with `db-max-open-conns`, `db-max-idle-conns` and the parsed
`db-max-idle-time`, each unchanged and none swapped; the handle records what
`database/sql` makes of them: the open bound, or 0 when it is negative; the
idle bound, with a non-positive one counting as none retained (zero stays
zero), reduced to the open bound when that is positive and smaller; the idle
time, or 0 when it is negative.  When the bounds are non-negative, the idle
bound does not exceed a positive open bound and the idle time is not
negative, the recorded policy equals the configuration exactly. -/
theorem C10_handle_policy_from_configuration (w : World) (cfg : config) (hdl : DB)
    (h : (openDB w cfg).db = some hdl) :
    hdl.dsn = cfg.db.dsn ∧
      Event.setMaxOpenConns cfg.db.maxOpenConns ∈ (openDB w cfg).trace ∧
      Event.setMaxIdleConns cfg.db.maxIdleConns ∈ (openDB w cfg).trace ∧
      ∃ d, w.parseDuration cfg.db.maxIdleTime = .ok d ∧
        Event.setConnMaxIdleTime d ∈ (openDB w cfg).trace ∧
        hdl.maxOpen = max cfg.db.maxOpenConns 0 ∧
        hdl.maxIdleConnsLocked =
          (if 0 < cfg.db.maxOpenConns then
            min (max cfg.db.maxIdleConns 0) cfg.db.maxOpenConns
          else max cfg.db.maxIdleConns 0) ∧
        hdl.maxIdleTime = max d 0 ∧
        (0 ≤ cfg.db.maxOpenConns → 0 ≤ cfg.db.maxIdleConns →
          (cfg.db.maxOpenConns = 0 ∨ cfg.db.maxIdleConns ≤ cfg.db.maxOpenConns) → 0 ≤ d →
            hdl.maxOpen = cfg.db.maxOpenConns ∧
            hdl.maxIdleConnsLocked = cfg.db.maxIdleConns ∧
            hdl.maxIdleTime = d) := by
  rcases openDB_cases w cfg with ⟨c, h1⟩ | ⟨h1, c, h2⟩ | ⟨h1, d, h2, c, h3⟩ | ⟨h1, d, h2, h3⟩
  · rw [openDB_alloc_failed w cfg c h1] at h
    simp at h
  · rw [openDB_parse_failed w cfg c h1 h2] at h
    simp at h
  · rw [openDB_probe_failed w cfg d c h1 h2 h3] at h
    simp at h
  · rw [openDB_succeeded w cfg d h1 h2 h3] at h ⊢
    simp only [Option.some.injEq] at h
    subst h
    obtain ⟨hdsn, ho, hi, ht⟩ := policyHandle_fields cfg d
    refine ⟨hdsn, by simp, by simp, d, h2, by simp, ho, hi, ht, ?_⟩
    intro h0 hi0 hle hd
    rw [ho, hi, ht]
    refine ⟨max_eq_left h0, ?_, max_eq_left hd⟩
    split_ifs <;> omega

/-- C10 amended, at a concrete call: 25 open connections, no idle connection
(zero stays zero), idle time `"10s"`. -/
theorem C10_handle_policy_witness :
    (openDB healthyWorld noIdleConfig).db = some (policyHandle noIdleConfig (10 * Second)) ∧
      (policyHandle noIdleConfig (10 * Second)).maxOpen = 25 ∧
      (policyHandle noIdleConfig (10 * Second)).maxIdleConnsLocked = 0 ∧
      (policyHandle noIdleConfig (10 * Second)).maxIdleTime = 10000000000 :=
  ⟨by decide,
    (C10_handle_policy_from_configuration healthyWorld noIdleConfig
      (policyHandle noIdleConfig (10 * Second)) (by decide)).2.2.2.elim
      (fun d hd => by
        have hd10 : d = 10 * Second := by
          have h1 := hd.1
          have h2 : healthyWorld.parseDuration noIdleConfig.db.maxIdleTime
              = .ok (10 * Second) := rfl
          rw [h2] at h1
          injection h1 with h1
          exact h1.symm
        subst hd10
        exact hd.2.2.2.2.2 (by decide) (by decide) (Or.inr (by decide)) (by decide))⟩

/-- C7. With no flag, the resolved configuration holds the registered
defaults and the `DB_DSN` value of the environment (empty when unset); with
flags, each variable holds the value supplied for it (the last one, if the
flag is repeated) and every variable without a flag keeps its default. -/
theorem C7_defaults_and_flag_overrides (w : World) (args : List Flag) :
    resolveConfig w [] =
      { port := 4000, env := "development",
        db := { dsn := (w.environ "DB_DSN").getD "", maxOpenConns := 25, maxIdleConns := 25,
                maxIdleTime := "15m" },
        limiter := { rps := 2, burst := 4, enabled := true } } ∧
    (resolveConfig w args).port = (supplied Flag.port? args).getD 4000 ∧
    (resolveConfig w args).env = (supplied Flag.env? args).getD "development" ∧
    (resolveConfig w args).db.dsn =
      (supplied Flag.dbDsn? args).getD ((w.environ "DB_DSN").getD "") ∧
    (resolveConfig w args).db.maxOpenConns = (supplied Flag.dbMaxOpenConns? args).getD 25 ∧
    (resolveConfig w args).db.maxIdleConns = (supplied Flag.dbMaxIdleConns? args).getD 25 ∧
    (resolveConfig w args).db.maxIdleTime = (supplied Flag.dbMaxIdleTime? args).getD "15m" ∧
    (resolveConfig w args).limiter.rps = (supplied Flag.limiterRps? args).getD 2 ∧
    (resolveConfig w args).limiter.burst = (supplied Flag.limiterBurst? args).getD 4 ∧
    (resolveConfig w args).limiter.enabled = (supplied Flag.limiterEnabled? args).getD true := by
  refine ⟨rfl, ?_, ?_, ?_, ?_, ?_, ?_, ?_, ?_, ?_⟩
  · exact resolveConfig_field (fun c => c.port) Flag.port?
      (fun c f => by cases f <;> rfl) w args
  · exact resolveConfig_field (fun c => c.env) Flag.env?
      (fun c f => by cases f <;> rfl) w args
  · exact resolveConfig_field (fun c => c.db.dsn) Flag.dbDsn?
      (fun c f => by cases f <;> rfl) w args
  · exact resolveConfig_field (fun c => c.db.maxOpenConns) Flag.dbMaxOpenConns?
      (fun c f => by cases f <;> rfl) w args
  · exact resolveConfig_field (fun c => c.db.maxIdleConns) Flag.dbMaxIdleConns?
      (fun c f => by cases f <;> rfl) w args
  · exact resolveConfig_field (fun c => c.db.maxIdleTime) Flag.dbMaxIdleTime?
      (fun c f => by cases f <;> rfl) w args
  · exact resolveConfig_field (fun c => c.limiter.rps) Flag.limiterRps?
      (fun c f => by cases f <;> rfl) w args
  · exact resolveConfig_field (fun c => c.limiter.burst) Flag.limiterBurst?
      (fun c f => by cases f <;> rfl) w args
  · exact resolveConfig_field (fun c => c.limiter.enabled) Flag.limiterEnabled?
      (fun c f => by cases f <;> rfl) w args

/-- C6, as stated, fails: a run without any data source name ends with a
non-zero status and has written no fatal log record. -/
theorem C6_counterexample_missing_dsn_leaves_no_record :
    (resolveConfig healthyWorld []).db.dsn = "" ∧
      (main healthyWorld []).outcome = .panicked missingDsnMessage ∧
      (main healthyWorld []).outcome.nonZero = true ∧
      (main healthyWorld []).trace.countP Event.isFatalRecord = 0 := by
  decide

/-- C6, amended. When `openDB` fails, and when the listener fails, `main`
writes exactly one fatal log record, carrying that error, as its last step
and the process ends with a non-zero status; when the data source name is
missing, `main` ends in a panic carrying the diagnostic message, with a
non-zero status, and the run holds no fatal log record at all; and a run
that ends with status zero wrote no fatal record. -/
theorem C6_fatal_record_then_nonzero_exit (w : World) (args : List Flag) :
    (∀ e, (resolveConfig w args).db.dsn ≠ "" →
      (openDB w (resolveConfig w args)).err = some e →
        (main w args).outcome = .fatalExit ∧ (main w args).outcome.nonZero = true ∧
        (main w args).trace.countP Event.isFatalRecord = 1 ∧
        (main w args).trace.getLast? = some (.printFatal e)) ∧
    (∀ c, (resolveConfig w args).db.dsn ≠ "" →
      (openDB w (resolveConfig w args)).err = none →
      w.serve (resolveConfig w args) = some c →
        (main w args).outcome = .fatalExit ∧ (main w args).outcome.nonZero = true ∧
        (main w args).trace.countP Event.isFatalRecord = 1 ∧
        (main w args).trace.getLast? = some (.printFatal (.serve c))) ∧
    ((resolveConfig w args).db.dsn = "" →
      (main w args).outcome = .panicked missingDsnMessage ∧
        (main w args).outcome.nonZero = true ∧
        (main w args).trace.countP Event.isFatalRecord = 0 ∧
        (∀ e, Event.printFatal e ∉ (main w args).trace)) ∧
    ((main w args).outcome.nonZero = false →
      (main w args).trace.countP Event.isFatalRecord = 0) := by
  unfold main
  generalize resolveConfig w args = conf
  have hnf := openDB_trace_no_fatal w conf
  refine ⟨?_, ?_, ?_, ?_⟩
  · intro e hd he
    rw [bootstrap_open_failed w conf e hd he]
    refine ⟨rfl, rfl, ?_, getLast?_cons_append_snoc _ _ [] _⟩
    simp [List.countP_cons, List.countP_append, hnf, Event.isFatalRecord]
  · intro c hd he hs
    rw [bootstrap_listener_failed w conf c hd he hs]
    refine ⟨rfl, rfl, ?_, getLast?_cons_append_snoc _ _
      [Event.printInfo "database connection established", Event.newModels,
        Event.serve (some c)] _⟩
    simp [List.countP_cons, List.countP_append, hnf, Event.isFatalRecord]
  · intro hd
    rw [bootstrap_missing_dsn w conf hd]
    simp [Outcome.nonZero]
  · by_cases hd : conf.db.dsn = ""
    · rw [bootstrap_missing_dsn w conf hd]
      simp
    · cases he : (openDB w conf).err with
      | some e =>
        rw [bootstrap_open_failed w conf e hd he]
        simp [Outcome.nonZero]
      | none =>
        obtain ⟨hdl, hdb⟩ := openDB_handle_of_no_error w conf he
        cases hs : w.serve conf with
        | some c =>
          rw [bootstrap_listener_failed w conf c hd he hs]
          simp [Outcome.nonZero]
        | none =>
          rw [bootstrap_graceful w conf hdl hd he hdb hs]
          simp [List.countP_cons, List.countP_append, hnf, Event.isFatalRecord]

/-- C8, as stated, fails: negative connection bounds and a negative limiter
burst are not rejected; the run hands them to `SetMaxOpenConns` and
`SetMaxIdleConns`, `openDB` returns a handle, and the listener is started. -/
theorem C8_counterexample_negative_bounds_reach_serving :
    (resolveConfig healthyWorldWithEnv
        [.dbMaxOpenConns (-1), .dbMaxIdleConns (-5), .limiterBurst (-4)]).db.maxOpenConns < 0 ∧
      (resolveConfig healthyWorldWithEnv
        [.dbMaxOpenConns (-1), .dbMaxIdleConns (-5), .limiterBurst (-4)]).db.maxIdleConns < 0 ∧
      (resolveConfig healthyWorldWithEnv
        [.dbMaxOpenConns (-1), .dbMaxIdleConns (-5), .limiterBurst (-4)]).limiter.burst < 0 ∧
      ((openDB healthyWorldWithEnv (resolveConfig healthyWorldWithEnv
        [.dbMaxOpenConns (-1), .dbMaxIdleConns (-5), .limiterBurst (-4)])).db).isSome = true ∧
      Event.setMaxOpenConns (-1) ∈ (main healthyWorldWithEnv
        [.dbMaxOpenConns (-1), .dbMaxIdleConns (-5), .limiterBurst (-4)]).trace ∧
      Event.setMaxIdleConns (-5) ∈ (main healthyWorldWithEnv
        [.dbMaxOpenConns (-1), .dbMaxIdleConns (-5), .limiterBurst (-4)]).trace ∧
      Event.serve none ∈ (main healthyWorldWithEnv
        [.dbMaxOpenConns (-1), .dbMaxIdleConns (-5), .limiterBurst (-4)]).trace ∧
      (main healthyWorldWithEnv
        [.dbMaxOpenConns (-1), .dbMaxIdleConns (-5), .limiterBurst (-4)]).outcome = .returned := by
  decide

/-- C8, amended. Bootstrap does not look at the sign of a numeric bound:
whenever the data source name is not empty and the pool is allocated,
`SetMaxOpenConns` and `SetMaxIdleConns` receive `db-max-open-conns` and
`db-max-idle-conns` as configured, negative or not; and when moreover the
idle time parses and the probe succeeds, `openDB` returns the handle with
that policy and the listener is started. -/
theorem C8_bounds_forwarded_without_sign_check (w : World) (args : List Flag)
    (hd : (resolveConfig w args).db.dsn ≠ "")
    (h1 : w.sqlOpen (resolveConfig w args).db.dsn = none) :
    Event.setMaxOpenConns (resolveConfig w args).db.maxOpenConns ∈ (main w args).trace ∧
      Event.setMaxIdleConns (resolveConfig w args).db.maxIdleConns ∈ (main w args).trace ∧
      (∀ d, w.parseDuration (resolveConfig w args).db.maxIdleTime = .ok d →
        w.pingContext (policyHandle (resolveConfig w args) d) pingTimeout = none →
          (openDB w (resolveConfig w args)).db = some (policyHandle (resolveConfig w args) d) ∧
          Event.serve (w.serve (resolveConfig w args)) ∈ (main w args).trace) := by
  unfold main
  generalize resolveConfig w args = conf at hd h1 ⊢
  have hmem : Event.setMaxOpenConns conf.db.maxOpenConns ∈ (openDB w conf).trace ∧
      Event.setMaxIdleConns conf.db.maxIdleConns ∈ (openDB w conf).trace := by
    rcases openDB_cases w conf with ⟨c, h1a⟩ | ⟨_, c, h2⟩ | ⟨_, d, h2, c, h3⟩ | ⟨_, d, h2, h3⟩
    · rw [h1] at h1a
      cases h1a
    · rw [openDB_parse_failed w conf c h1 h2]
      simp
    · rw [openDB_probe_failed w conf d c h1 h2 h3]
      simp
    · rw [openDB_succeeded w conf d h1 h2 h3]
      simp
  have hin : ∀ x ∈ (openDB w conf).trace, x ∈ (bootstrap w conf).trace := by
    intro x hx
    cases he : (openDB w conf).err with
    | some e =>
      rw [bootstrap_open_failed w conf e hd he]
      simp [hx]
    | none =>
      obtain ⟨hdl, hdb⟩ := openDB_handle_of_no_error w conf he
      cases hs : w.serve conf with
      | some c =>
        rw [bootstrap_listener_failed w conf c hd he hs]
        simp [hx]
      | none =>
        rw [bootstrap_graceful w conf hdl hd he hdb hs]
        simp [hx]
  refine ⟨hin _ hmem.1, hin _ hmem.2, ?_⟩
  intro d h2 h3
  have hok := openDB_succeeded w conf d h1 h2 h3
  have he : (openDB w conf).err = none := by rw [hok]
  have hdb : (openDB w conf).db = some (policyHandle conf d) := by rw [hok]
  refine ⟨hdb, ?_⟩
  cases hs : w.serve conf with
  | some c =>
    rw [bootstrap_listener_failed w conf c hd he hs]
    simp
  | none =>
    rw [bootstrap_graceful w conf _ hd he hdb hs]
    simp

/-- C8 amended, at a concrete run with negative connection bounds. -/
theorem C8_negative_bounds_witness :
    (resolveConfig healthyWorld [.dbDsn "postgres://localhost/greenlight", .dbMaxOpenConns (-3),
        .dbMaxIdleConns (-2)]).db.dsn ≠ "" ∧
      Event.setMaxOpenConns (resolveConfig healthyWorld [.dbDsn "postgres://localhost/greenlight",
        .dbMaxOpenConns (-3), .dbMaxIdleConns (-2)]).db.maxOpenConns ∈
          (main healthyWorld [.dbDsn "postgres://localhost/greenlight", .dbMaxOpenConns (-3),
            .dbMaxIdleConns (-2)]).trace :=
  ⟨by decide,
    (C8_bounds_forwarded_without_sign_check healthyWorld
      [.dbDsn "postgres://localhost/greenlight", .dbMaxOpenConns (-3), .dbMaxIdleConns (-2)]
      (by decide) rfl).1⟩

/-- C2 at a concrete run: defaults, `DB_DSN` set, store up.  The listener
start is the eleventh step and the successful probe stands before it. -/
theorem C2_listener_witness :
    Event.pingContext pingTimeout none ∈
      [Event.println 4000, .sqlOpen "postgres://greenlight@localhost/greenlight" none,
        .setMaxOpenConns 25, .setMaxIdleConns 25, .parseDuration "15m" true,
        .setConnMaxIdleTime (900 * Second), .pingContext pingTimeout none, .cancel,
        .printInfo "database connection established", .newModels] :=
  ((C2_listener_only_after_successful_probe healthyWorldWithEnv []).1 _ [Event.close] none
    (by decide)).2.2

/-- C3 at a concrete call: the store does not answer, so the third step is
the first to fail and its error is what `openDB` returns. -/
theorem C3_probe_failure_witness :
    (openDB unreachableStoreWorld noIdleConfig).db = none ∧
      (openDB unreachableStoreWorld noIdleConfig).err
        = some (.pingContext "context deadline exceeded") :=
  (C3_openDB_handle_iff_all_steps_succeed unreachableStoreWorld noIdleConfig).2.2.2.2
    (10 * Second) "context deadline exceeded" rfl rfl rfl

/-- C6 amended, at a concrete run: the listener cannot bind its port. -/
theorem C6_listener_failure_witness :
    (main failingListenerWorld [.dbDsn "postgres://localhost/greenlight"]).outcome = .fatalExit ∧
      (main failingListenerWorld [.dbDsn "postgres://localhost/greenlight"]).outcome.nonZero
        = true ∧
      (main failingListenerWorld [.dbDsn "postgres://localhost/greenlight"]).trace.countP
        Event.isFatalRecord = 1 ∧
      (main failingListenerWorld [.dbDsn "postgres://localhost/greenlight"]).trace.getLast?
        = some (.printFatal (.serve "listen tcp :4000: bind: address already in use")) :=
  (C6_fatal_record_then_nonzero_exit failingListenerWorld
    [.dbDsn "postgres://localhost/greenlight"]).2.1
    "listen tcp :4000: bind: address already in use" (by decide) (by decide) rfl

/-- C7 at a concrete command line: `-port` given twice and the limiter
switched off; the port is the last value given, the limiter flag is the one
supplied, and the untouched variables hold their defaults. -/
theorem C7_override_witness :
    (resolveConfig healthyWorldWithEnv [.port 8080, .limiterEnabled false, .port 9090]).port
        = 9090 ∧
      (resolveConfig healthyWorldWithEnv
        [.port 8080, .limiterEnabled false, .port 9090]).limiter.enabled = false ∧
      (resolveConfig healthyWorldWithEnv
        [.port 8080, .limiterEnabled false, .port 9090]).db.maxOpenConns = 25 ∧
      (resolveConfig healthyWorldWithEnv
        [.port 8080, .limiterEnabled false, .port 9090]).db.dsn
          = "postgres://greenlight@localhost/greenlight" :=
  ⟨(C7_defaults_and_flag_overrides healthyWorldWithEnv
      [.port 8080, .limiterEnabled false, .port 9090]).2.1,
    (C7_defaults_and_flag_overrides healthyWorldWithEnv
      [.port 8080, .limiterEnabled false, .port 9090]).2.2.2.2.2.2.2.2.2,
    (C7_defaults_and_flag_overrides healthyWorldWithEnv
      [.port 8080, .limiterEnabled false, .port 9090]).2.2.2.2.1,
    (C7_defaults_and_flag_overrides healthyWorldWithEnv
      [.port 8080, .limiterEnabled false, .port 9090]).2.2.2.1⟩

end MovieService
